import Mathlib

/-!
Verification of the synthetic-data dashboard repository.

The repository is a browser UI over a hosted relational store.  The parts of
it that the properties below concern are pure computations (string parsing,
templated record construction, counting queries) plus the ordered sequence of
data-store insert calls each handler issues.  We embed those parts directly:

  - JS string primitives used by the handlers (split on a separator char,
    trim, toLowerCase, includes, slice, replace-first) are reimplemented on
    `List Char` by structural recursion, matching ECMAScript semantics.
  - JS numbers that only flow through arithmetic are modelled as rationals
    (the metric scores) or integers (row counts, millisecond timestamps).
    The epsilon and k-anonymity inputs are only ever passed through or
    interpolated into template strings, so they are modelled by their JS
    decimal string rendering.
  - Each event handler becomes a function from its inputs (form state, file
    text, the outcomes the data store returns for each issued call) to an
    effect record: the ordered list of data-store operations it issued and
    the resulting view state (success flag, error message, scheduled
    callbacks).  The data-store client resolves every call with a
    record containing an optional error value rather than throwing; the
    source checks such errors by destructuring (for example
    `if (genError) throw genError` in the generator), and calls whose result
    is never destructured therefore have their failures ignored.  The model
    mirrors this: an insert outcome is an input to the handler, and the
    handler's result depends on it exactly where the source reads it.
-/

namespace SynthData

/-! ## JS string primitives -/

/-- ECMAScript white-space and line-terminator characters: the set removed by
`String.prototype.trim`. -/
def isJsWhitespace (c : Char) : Bool :=
  c == ' ' || c == '\t' || c == '\n' || c == '\r' ||
  c.toNat == 0x0b || c.toNat == 0x0c || c.toNat == 0xa0 || c.toNat == 0x1680 ||
  (0x2000 ≤ c.toNat && c.toNat ≤ 0x200a) ||
  c.toNat == 0x2028 || c.toNat == 0x2029 || c.toNat == 0x202f ||
  c.toNat == 0x205f || c.toNat == 0x3000 || c.toNat == 0xfeff

/-- `String.prototype.trim`: drop leading and trailing JS whitespace. -/
def jsTrim (s : String) : String :=
  String.mk (((s.data.dropWhile isJsWhitespace).reverse.dropWhile isJsWhitespace).reverse)

/-- `String.prototype.toLowerCase`, modelled for the ASCII range (the
sensitivity keywords matched against it are ASCII). -/
def jsToLower (s : String) : String :=
  String.mk (s.data.map Char.toLower)

/-- Does the list start with the given pattern?  (Scanning step of
`String.prototype.includes`.) -/
def startsWithChars : List Char → List Char → Bool
  | _, [] => true
  | [], _ :: _ => false
  | c :: l, p :: ps => c == p && startsWithChars l ps

/-- Does `pat` occur as a contiguous run inside `l`?  (Char-list core of
`String.prototype.includes`.) -/
def containsSub : List Char → List Char → Bool
  | [], pat => startsWithChars [] pat
  | c :: t, pat => startsWithChars (c :: t) pat || containsSub t pat

/-- `haystack.includes(needle)`. -/
def jsIncludes (haystack needle : String) : Bool :=
  containsSub haystack.data needle.data

/-- `String.prototype.split` with a single-character separator (both call
sites in the source split on a single char: newline or comma). -/
def splitOnSep (sep : Char) : List Char → List (List Char)
  | [] => [[]]
  | c :: t =>
    match splitOnSep sep t with
    | [] => [[]]
    | cur :: rest => if c == sep then [] :: cur :: rest else (c :: cur) :: rest

/-- `s.split(sep)` for a one-character separator. -/
def jsSplit (s : String) (sep : Char) : List String :=
  (splitOnSep sep s.data).map String.mk

/-- `s.slice(a, b)` for `0 ≤ a ≤ b`. -/
def jsSlice (s : String) (a b : Nat) : String :=
  String.mk ((s.data.drop a).take (b - a))

/-- `String.prototype.replace` with a string pattern: replace the first
occurrence only. -/
def replaceFirst : List Char → List Char → List Char → List Char
  | [], pat, rep => if startsWithChars [] pat then rep else []
  | c :: t, pat, rep =>
    if startsWithChars (c :: t) pat then rep ++ (c :: t).drop pat.length
    else c :: replaceFirst t pat rep

/-- `s.replace(pat, rep)` (first occurrence, string pattern). -/
def jsReplaceFirst (s pat rep : String) : String :=
  String.mk (replaceFirst s.data pat.data rep.data)

/-- Specification-side substring relation: `sub` occurs verbatim inside `s`. -/
def occursInStr (sub s : String) : Prop :=
  ∃ pre post : String, s = pre ++ sub ++ post

/-! ## Data model

Row payloads as the handlers build them, one structure per insert call.
Timestamps are milliseconds since the epoch (`Date.now()`); the ISO rendering
applied before storage is injective, so the integer value stands for the
stored string. -/

/-- One entry of a dataset's derived column schema. -/
structure SchemaEntry where
  name : String
  type : String
  sensitive : Bool
deriving DecidableEq, Repr

/-- Payload of the `datasets` insert in `handleUpload` / `handleTemplateSelect`. -/
structure DatasetInsert where
  project_id : String
  name : String
  description : String
  schema_json : List SchemaEntry
  row_count : Int
  data_type : String
  status : String
deriving DecidableEq, Repr

/-- The generator form's parameter bag.  `epsilon` and `k_anonymity` are JS
numbers used only by interpolation into template strings and pass-through
storage, so they are carried as their decimal renderings. -/
structure GenParams where
  model_type : String
  row_count : Int
  epsilon : String
  k_anonymity : String
deriving DecidableEq, Repr

/-- Payload of the `synthetic_generations` insert in `handleGenerate`. -/
structure GenerationInsert where
  dataset_id : String
  user_id : String
  model_type : String
  parameters : GenParams
  row_count : Int
  status : String
  started_at : Int
  completed_at : Int
deriving DecidableEq, Repr

/-- The constant `metrics_json` object of the privacy-metrics payload. -/
structure PrivacyMetricsJson where
  differential_privacy : Bool
  anonymization_level : String
deriving DecidableEq, Repr

/-- Payload of the `privacy_metrics` insert in `handleGenerate`. -/
structure PrivacyMetricsInsert where
  generation_id : String
  epsilon : String
  k_anonymity : String
  privacy_risk_score : ℚ
  leakage_probability : ℚ
  metrics_json : PrivacyMetricsJson
deriving DecidableEq, Repr

/-- The constant `metrics_json` object of the utility-metrics payload. -/
structure UtilityMetricsJson where
  statistical_tests_passed : Int
  total_statistical_tests : Int
deriving DecidableEq, Repr

/-- Payload of the `utility_metrics` insert in `handleGenerate`. -/
structure UtilityMetricsInsert where
  generation_id : String
  fidelity_score : ℚ
  similarity_score : ℚ
  correlation_preservation : ℚ
  distribution_similarity : ℚ
  ml_efficacy_score : ℚ
  metrics_json : UtilityMetricsJson
deriving DecidableEq, Repr

/-- The `report_data` object of the compliance-report payload. -/
structure ReportData where
  regulation : String
  privacy_guarantees : String
  anonymization : String
  data_minimization : Bool
  purpose_limitation : Bool
  generated_at : Int
  valid_until : Int
deriving DecidableEq, Repr

/-- Payload of the `compliance_reports` insert in `handleGenerate`. -/
structure ComplianceInsert where
  generation_id : String
  report_type : String
  compliance_status : String
  report_data : ReportData
deriving DecidableEq, Repr

/-- A data-store operation issued by a handler (the handlers in scope only
ever insert). -/
inductive DbOp where
  | insertDataset (row : DatasetInsert)
  | insertGeneration (row : GenerationInsert)
  | insertPrivacy (row : PrivacyMetricsInsert)
  | insertUtility (row : UtilityMetricsInsert)
  | insertCompliance (row : ComplianceInsert)
deriving DecidableEq, Repr

/-- The error value a failed data-store call resolves with.  The client
returns it in the result record; it only aborts a handler where the handler
destructures and rethrows it. -/
structure DbError where
  message : String
deriving DecidableEq, Repr

/-- The row returned by a successful insert-returning-row call (`.select()
.single()`); the handlers only read its server-assigned `id`. -/
structure InsertedRow where
  id : String
deriving DecidableEq, Repr

/-- The hosted store's visible contents, one list per table in scope. -/
structure Store where
  datasets : List DatasetInsert
  generations : List GenerationInsert
  privacy_metrics : List PrivacyMetricsInsert
  utility_metrics : List UtilityMetricsInsert
  compliance_reports : List ComplianceInsert
deriving DecidableEq, Repr

/-- Commit one operation to the store. -/
def applyOp (s : Store) : DbOp → Store
  | .insertDataset row => { s with datasets := s.datasets ++ [row] }
  | .insertGeneration row => { s with generations := s.generations ++ [row] }
  | .insertPrivacy row => { s with privacy_metrics := s.privacy_metrics ++ [row] }
  | .insertUtility row => { s with utility_metrics := s.utility_metrics ++ [row] }
  | .insertCompliance row => { s with compliance_reports := s.compliance_reports ++ [row] }

/-- Commit a sequence of operations in order. -/
def applyOps (s : Store) (ops : List DbOp) : Store :=
  ops.foldl applyOp s

/-! ## Dataset uploader (`DatasetUpload` component) -/

/-- The selected file as the change handler sees it: `name` and MIME `type`
of `e.target.files[0]`. -/
structure FileDesc where
  name : String
  mime : String
deriving DecidableEq, Repr

/-- The uploader's local form state touched by `handleFileChange`. -/
structure UploadFormState where
  file : Option FileDesc
  datasetName : String
  error : String
deriving DecidableEq, Repr

/-- `handleFileChange`: validate the selected file's MIME type before any
network activity.  A non-CSV type sets the inline error and returns without
touching `file` or `datasetName`; a CSV file is accepted, the dataset name is
pre-filled from the file name with its first `.csv` removed, and the error is
cleared.  The second component is the list of data-store operations the
handler issues: the source issues none on either path. -/
def handleFileChange (st : UploadFormState) (selected : Option FileDesc) :
    UploadFormState × List DbOp :=
  match selected with
  | none => (st, [])
  | some f =>
    if f.mime != "text/csv" then
      ({ st with error := "Please upload a CSV file" }, [])
    else
      ({ st with
          file := some f,
          datasetName := jsReplaceFirst f.name ".csv" "",
          error := "" }, [])

/-- Sensitivity heuristic applied to one raw (untrimmed) header: substring
match on the lowercased header. -/
def sensitiveHeader (header : String) : Bool :=
  jsIncludes (jsToLower header) "id" ||
  jsIncludes (jsToLower header) "name" ||
  jsIncludes (jsToLower header) "phone"

/-- One schema entry per comma-separated header: trimmed name, constant type
`"string"`, heuristic sensitivity flag. -/
def deriveSchema (headers : List String) : List SchemaEntry :=
  headers.map fun header =>
    { name := jsTrim header, type := "string", sensitive := sensitiveHeader header }

/-- `text.split('\n').filter(row => row.trim())`: the lines kept for row
counting and header extraction. -/
def nonBlankRows (text : String) : List String :=
  (jsSplit text '\n').filter fun row => jsTrim row != ""

/-- Message of the TypeError raised by `rows[0].split(',')` when `rows` is
empty (`rows[0]` is `undefined`); exact wording is engine-specific, V8 shown. -/
def undefinedSplitMessage : String :=
  "Cannot read properties of undefined (reading 'split')"

/-- Resulting state of one `handleUpload` submission. -/
structure UploadEffects where
  ops : List DbOp
  success : Bool
  errorMsg : Option String
  uploadCompleteWith : Option String
deriving DecidableEq, Repr

/-- `handleUpload`: guard on file/project/user presence, split the file text
on newline, drop blank lines, derive the schema from the first kept line's
comma-separated headers, and insert one dataset row with
`row_count = rows.length - 1`.  When no line survives the blank filter,
reading `rows[0]` throws before the insert and the catch shows the error.
`dbOutcome` is the result the store returns for the insert: an error is
rethrown and shown; a returned row's id is handed to `onUploadComplete`
after the fixed UI delay. -/
def handleUpload (file : Option String) (projectId : Option String)
    (user : Option String) (datasetName description : String)
    (dbOutcome : Except DbError InsertedRow) : UploadEffects :=
  match file, projectId, user with
  | some text, some pid, some _uid =>
    match nonBlankRows text with
    | [] =>
      { ops := [], success := false,
        errorMsg := some undefinedSplitMessage, uploadCompleteWith := none }
    | r0 :: rest =>
      let headers := jsSplit r0 ','
      let row : DatasetInsert :=
        { project_id := pid, name := datasetName, description := description,
          schema_json := deriveSchema headers,
          row_count := ((r0 :: rest).length : Int) - 1,
          data_type := "tabular", status := "uploaded" }
      match dbOutcome with
      | .error e =>
        { ops := [.insertDataset row], success := false,
          errorMsg := some e.message, uploadCompleteWith := none }
      | .ok dataset =>
        { ops := [.insertDataset row], success := true,
          errorMsg := none, uploadCompleteWith := some dataset.id }
  | _, _, _ =>
    { ops := [], success := false, errorMsg := none, uploadCompleteWith := none }

/-! ## Generation trigger (`SyntheticGenerator` component) -/

/-- The seven `Math.random()` draws of one `handleGenerate` run, in source
order; each lies in `[0, 1)`. -/
structure RandomDraws where
  r_privacy_risk : ℚ
  r_leakage : ℚ
  r_fidelity : ℚ
  r_similarity : ℚ
  r_correlation : ℚ
  r_distribution : ℚ
  r_ml : ℚ
deriving DecidableEq, Repr

/-- All seven draws lie in the half-open unit interval. -/
def RandomDraws.inUnit (d : RandomDraws) : Prop :=
  (0 ≤ d.r_privacy_risk ∧ d.r_privacy_risk < 1) ∧
  (0 ≤ d.r_leakage ∧ d.r_leakage < 1) ∧
  (0 ≤ d.r_fidelity ∧ d.r_fidelity < 1) ∧
  (0 ≤ d.r_similarity ∧ d.r_similarity < 1) ∧
  (0 ≤ d.r_correlation ∧ d.r_correlation < 1) ∧
  (0 ≤ d.r_distribution ∧ d.r_distribution < 1) ∧
  (0 ≤ d.r_ml ∧ d.r_ml < 1)

/-- The `synthetic_generations` payload: immediately marked completed, both
timestamps taken at submission time. -/
def mkGenerationInsert (datasetId userId : String) (params : GenParams)
    (now : Int) : GenerationInsert :=
  { dataset_id := datasetId, user_id := userId,
    model_type := params.model_type, parameters := params,
    row_count := params.row_count, status := "completed",
    started_at := now, completed_at := now }

/-- The `privacy_metrics` payload built in `handleGenerate`. -/
def mkPrivacyMetrics (genId : String) (params : GenParams)
    (d : RandomDraws) : PrivacyMetricsInsert :=
  { generation_id := genId,
    epsilon := params.epsilon, k_anonymity := params.k_anonymity,
    privacy_risk_score := 0.05 + d.r_privacy_risk * 0.10,
    leakage_probability := 0.001 + d.r_leakage * 0.005,
    metrics_json :=
      { differential_privacy := true, anonymization_level := "high" } }

/-- The `utility_metrics` payload built in `handleGenerate`. -/
def mkUtilityMetrics (genId : String) (d : RandomDraws) : UtilityMetricsInsert :=
  { generation_id := genId,
    fidelity_score := 0.85 + d.r_fidelity * 0.10,
    similarity_score := 0.88 + d.r_similarity * 0.08,
    correlation_preservation := 0.90 + d.r_correlation * 0.08,
    distribution_similarity := 0.87 + d.r_distribution * 0.09,
    ml_efficacy_score := 0.82 + d.r_ml * 0.12,
    metrics_json :=
      { statistical_tests_passed := 15, total_statistical_tests := 18 } }

/-- The `compliance_reports` payload built in `handleGenerate`: templated
strings embedding the epsilon and k inputs, fixed compliant status, validity
window of 365 days in milliseconds from the current time. -/
def mkComplianceData (genId : String) (params : GenParams)
    (now : Int) : ComplianceInsert :=
  { generation_id := genId,
    report_type := "kenya_dpa",
    compliance_status := "compliant",
    report_data :=
      { regulation := "Kenya Data Protection Act, 2019",
        privacy_guarantees := "ε-differential privacy with ε=" ++ params.epsilon,
        anonymization := "k-anonymity with k=" ++ params.k_anonymity,
        data_minimization := true,
        purpose_limitation := true,
        generated_at := now,
        valid_until := now + 365 * 24 * 60 * 60 * 1000 } }

/-- Resulting state of one `handleGenerate` submission. -/
structure GenerateEffects where
  ops : List DbOp
  success : Bool
  errorMsg : Option String
  onGenerationCompleteScheduled : Bool
deriving DecidableEq, Repr

/-- `handleGenerate`: guard on dataset/user presence, insert the generation
row, and on its success issue the three metrics/report inserts together
through `Promise.all`.  `genOutcome` is the destructured result of the
generation insert: its error is rethrown and shown.  The three joint insert
calls resolve with result records carried here as `_privacyResult`,
`_utilityResult` and `_complianceResult`; the source never destructures
them, so the handler reaches `setSuccess(true)` and schedules
`onGenerationComplete` whatever they hold. -/
def handleGenerate (datasetId : Option String) (user : Option String)
    (params : GenParams) (now : Int) (d : RandomDraws)
    (genOutcome : Except DbError InsertedRow)
    (_privacyResult _utilityResult _complianceResult : Option DbError) :
    GenerateEffects :=
  match datasetId, user with
  | some did, some uid =>
    let genRow := mkGenerationInsert did uid params now
    match genOutcome with
    | .error e =>
      { ops := [.insertGeneration genRow], success := false,
        errorMsg := some e.message, onGenerationCompleteScheduled := false }
    | .ok gen =>
      { ops := [.insertGeneration genRow,
                .insertPrivacy (mkPrivacyMetrics gen.id params d),
                .insertUtility (mkUtilityMetrics gen.id d),
                .insertCompliance (mkComplianceData gen.id params now)],
        success := true, errorMsg := none,
        onGenerationCompleteScheduled := true }
  | _, _ =>
    { ops := [], success := false, errorMsg := none,
      onGenerationCompleteScheduled := false }

/-! ## Metrics viewer (`PrivacyMetrics` component) -/

/-- The joined generation row as the viewer holds it; only the fields the
download action reads. -/
structure GenerationView where
  id : String
  compliance_reports : List ComplianceInsert
deriving DecidableEq, Repr

/-- The synthetic in-browser download the export action triggers. -/
structure DownloadFile where
  name : String
  mimeType : String
deriving DecidableEq, Repr

/-- `downloadComplianceReport`: return early when the generation has no
report row, otherwise offer a client-side download of the templated text
report.  The body is a fixed template over the report fields rendered with
locale-dependent formatting (`toLocaleString`), which the properties below
do not concern; the file name and blob MIME type are modelled exactly.  The
second component is the list of data-store operations issued: the source
issues none. -/
def downloadComplianceReport (gen : GenerationView) :
    Option DownloadFile × List DbOp :=
  match gen.compliance_reports with
  | [] => (none, [])
  | _report :: _ =>
    (some { name := "compliance-report-" ++ jsSlice gen.id 0 8 ++ ".txt",
            mimeType := "text/plain" }, [])

/-! ## Dashboard shell (`Dashboard` component) -/

/-- A `projects` row as the count query sees it. -/
structure StatProjectRow where
  id : String
  user_id : String
deriving DecidableEq, Repr

/-- A `datasets` row as the count query sees it.  The table carries no user
column; a dataset is owned through its project, recorded here as
`owner_user_id` so ownership can be stated — the query reads no user field. -/
structure StatDatasetRow where
  id : String
  owner_user_id : String
deriving DecidableEq, Repr

/-- A `synthetic_generations` row as the count query sees it. -/
structure StatGenRow where
  id : String
  user_id : String
deriving DecidableEq, Repr

/-- Store contents visible to the dashboard's three count queries. -/
structure StatsStore where
  projects : List StatProjectRow
  datasets : List StatDatasetRow
  generations : List StatGenRow
deriving DecidableEq, Repr

/-- The aggregate numbers `loadStats` renders. -/
structure Stats where
  totalProjects : Nat
  totalDatasets : Nat
  totalGenerations : Nat
  recentActivity : Nat
deriving DecidableEq, Repr

/-- `loadStats`: exact counts — projects and generations filtered to
`user_id = uid`, datasets counted with no filter. -/
def loadStats (store : StatsStore) (uid : String) : Stats :=
  { totalProjects := (store.projects.filter fun p => p.user_id == uid).length,
    totalDatasets := store.datasets.length,
    totalGenerations := (store.generations.filter fun g => g.user_id == uid).length,
    recentActivity := (store.generations.filter fun g => g.user_id == uid).length }

/-! ## Helper lemmas -/

/-- `startsWithChars` holds exactly when the pattern is an initial segment. -/
lemma startsWithChars_iff (pat l : List Char) :
    startsWithChars l pat = true ↔ ∃ rest, l = pat ++ rest := by
  induction pat generalizing l with
  | nil => simp [startsWithChars]
  | cons p ps ih =>
    cases l with
    | nil => simp [startsWithChars]
    | cons c t =>
      rw [startsWithChars, Bool.and_eq_true, beq_iff_eq, ih]
      constructor
      · rintro ⟨hc, rest, ht⟩
        exact ⟨rest, by simp [hc, ht]⟩
      · rintro ⟨rest, h⟩
        injection h with h1 h2
        exact ⟨h1, rest, h2⟩

/-- `containsSub` holds exactly when the pattern occurs contiguously. -/
lemma containsSub_iff (l pat : List Char) :
    containsSub l pat = true ↔ ∃ pre post, l = pre ++ pat ++ post := by
  induction l with
  | nil =>
    rw [containsSub, startsWithChars_iff]
    constructor
    · rintro ⟨rest, h⟩
      exact ⟨[], rest, by simpa using h⟩
    · rintro ⟨pre, post, h⟩
      rw [eq_comm, List.append_eq_nil] at h
      obtain ⟨h1, h2⟩ := h
      rw [List.append_eq_nil] at h1
      exact ⟨post, by simp [h1.2, h2]⟩
  | cons c t ih =>
    rw [containsSub, Bool.or_eq_true, startsWithChars_iff, ih]
    constructor
    · rintro (⟨rest, h⟩ | ⟨pre, post, h⟩)
      · exact ⟨[], rest, by simpa using h⟩
      · exact ⟨c :: pre, post, by simp [h]⟩
    · rintro ⟨pre, post, h⟩
      cases pre with
      | nil => exact Or.inl ⟨post, by simpa using h⟩
      | cons x xs =>
        injection h with h1 h2
        exact Or.inr ⟨xs, post, h2⟩

/-- `String.includes` agrees with the specification-side substring relation. -/
lemma jsIncludes_iff (s pat : String) :
    jsIncludes s pat = true ↔ occursInStr pat s := by
  rw [jsIncludes, containsSub_iff]
  constructor
  · rintro ⟨pre, post, h⟩
    refine ⟨String.mk pre, String.mk post, String.ext_iff.mpr ?_⟩
    simpa [String.data_append] using h
  · rintro ⟨pre, post, h⟩
    exact ⟨pre.data, post.data, by simp [h, String.data_append]⟩

/-- A string trims to empty exactly when all its characters are whitespace. -/
lemma jsTrim_eq_empty_iff (s : String) :
    jsTrim s = "" ↔ ∀ c ∈ s.data, isJsWhitespace c = true := by
  rw [jsTrim, show ("" : String) = String.mk [] from rfl]
  rw [String.ext_iff]
  show _ = ([] : List Char) ↔ _
  rw [List.reverse_eq_nil_iff, List.dropWhile_eq_nil_iff]
  constructor
  · intro h c hc
    rcases List.mem_append.mp
        ((List.takeWhile_append_dropWhile isJsWhitespace s.data ▸ hc :
          c ∈ _ ++ _)) with hc1 | hc2
    · exact List.mem_takeWhile_imp hc1
    · exact h c (List.mem_reverse.mpr hc2)
  · intro h c hc
    exact h c ((List.dropWhile_sublist isJsWhitespace).mem (List.mem_reverse.mp hc))

/-- Pointwise form of the blank-line filter: keeping a line whose trim is
nonempty is the same as keeping a line with a non-whitespace character. -/
lemma nonBlank_pointwise (l : String) :
    (jsTrim l != "") = l.data.any fun c => !(isJsWhitespace c) := by
  rw [Bool.eq_iff_iff, bne_iff_ne, ne_eq, jsTrim_eq_empty_iff, List.any_eq_true]
  constructor
  · intro h
    by_contra hc
    push_neg at hc
    exact h fun c hm => by
      have := hc c hm
      simpa using this
  · rintro ⟨c, hm, hc⟩ h
    rw [h c hm] at hc
    simp at hc

/-- The kept rows are exactly the lines containing a non-whitespace char. -/
lemma nonBlankRows_spec (text : String) :
    nonBlankRows text =
      (jsSplit text '\n').filter fun l => l.data.any fun c => !(isJsWhitespace c) :=
  List.filter_congr fun x _ => nonBlank_pointwise x

/-- Lower bound of a shifted-scaled unit draw. -/
lemma unifLe (a w r : ℚ) (hw : 0 ≤ w) (h0 : 0 ≤ r) : a ≤ a + r * w := by
  nlinarith

/-- Upper bound of a shifted-scaled unit draw. -/
lemma unifGe (a b w r : ℚ) (hb : a + w ≤ b) (hw : 0 ≤ w) (h1 : r < 1) :
    a + r * w ≤ b := by
  nlinarith

/-! ## Concrete sample inputs used by witnesses -/

/-- The generator form's default parameters (epsilon 1.0 renders as "1"). -/
def sampleParams : GenParams :=
  { model_type := "ctgan", row_count := 10000, epsilon := "1", k_anonymity := "5" }

/-- Seven concrete unit-interval draws. -/
def sampleDraws : RandomDraws :=
  { r_privacy_risk := 0, r_leakage := 0, r_fidelity := 0, r_similarity := 0,
    r_correlation := 0, r_distribution := 0, r_ml := 0 }

/-! ## Claims -/

/-- C1, counterexample: at a concrete run in which the Generation insert
succeeded and the privacy-metrics insert failed (its resolved error value is
`some`), the handler still declares success and still schedules
`onGenerationComplete` — refuting the claim that a single failing insert
aborts the success transition. -/
theorem claim_C1_counterexample :
    (handleGenerate (some "ds1") (some "u1") sampleParams 0 sampleDraws
        (Except.ok ⟨"gen1"⟩) (some ⟨"privacy_metrics insert failed"⟩)
        none none).success = true ∧
    (handleGenerate (some "ds1") (some "u1") sampleParams 0 sampleDraws
        (Except.ok ⟨"gen1"⟩) (some ⟨"privacy_metrics insert failed"⟩)
        none none).onGenerationCompleteScheduled = true :=
  ⟨rfl, rfl⟩

/-- C1, amended: after the Generation row is inserted, the three
metrics/report inserts are issued together and awaited jointly, but their
resolved results are never inspected: whatever errors they carry, the
handler declares success and schedules `onGenerationComplete`, and the
operations it issues are exactly the four inserts — committed inserts are
not undone (no compensating operation exists in the trace). -/
theorem claim_C1_amended (did uid : String) (params : GenParams) (now : Int)
    (d : RandomDraws) (gen : InsertedRow) (r1 r2 r3 : Option DbError) :
    (handleGenerate (some did) (some uid) params now d (.ok gen) r1 r2 r3).ops =
      [.insertGeneration (mkGenerationInsert did uid params now),
       .insertPrivacy (mkPrivacyMetrics gen.id params d),
       .insertUtility (mkUtilityMetrics gen.id d),
       .insertCompliance (mkComplianceData gen.id params now)] ∧
    (handleGenerate (some did) (some uid) params now d (.ok gen) r1 r2 r3).success = true ∧
    (handleGenerate (some did) (some uid) params now d
        (.ok gen) r1 r2 r3).onGenerationCompleteScheduled = true :=
  ⟨rfl, rfl, rfl⟩

/-- C2: on every invocation of the generation trigger, with all seven
underlying random draws in [0, 1), every stored metric value lies within its
documented interval: privacy_risk_score in [0.05, 0.15], leakage_probability
in [0.001, 0.006], fidelity_score in [0.85, 0.95], similarity_score in
[0.88, 0.96], correlation_preservation in [0.90, 0.98],
distribution_similarity in [0.87, 0.96], ml_efficacy_score in [0.82, 0.94]. -/
theorem claim_C2 (datasetId user : Option String) (params : GenParams)
    (now : Int) (d : RandomDraws) (genOutcome : Except DbError InsertedRow)
    (r1 r2 r3 : Option DbError) (hd : d.inUnit) :
    (∀ p : PrivacyMetricsInsert,
      DbOp.insertPrivacy p ∈
        (handleGenerate datasetId user params now d genOutcome r1 r2 r3).ops →
      (0.05 ≤ p.privacy_risk_score ∧ p.privacy_risk_score ≤ 0.15) ∧
      (0.001 ≤ p.leakage_probability ∧ p.leakage_probability ≤ 0.006)) ∧
    (∀ u : UtilityMetricsInsert,
      DbOp.insertUtility u ∈
        (handleGenerate datasetId user params now d genOutcome r1 r2 r3).ops →
      (0.85 ≤ u.fidelity_score ∧ u.fidelity_score ≤ 0.95) ∧
      (0.88 ≤ u.similarity_score ∧ u.similarity_score ≤ 0.96) ∧
      (0.90 ≤ u.correlation_preservation ∧ u.correlation_preservation ≤ 0.98) ∧
      (0.87 ≤ u.distribution_similarity ∧ u.distribution_similarity ≤ 0.96) ∧
      (0.82 ≤ u.ml_efficacy_score ∧ u.ml_efficacy_score ≤ 0.94)) := by
  obtain ⟨⟨h1a, h1b⟩, ⟨h2a, h2b⟩, ⟨h3a, h3b⟩, ⟨h4a, h4b⟩,
    ⟨h5a, h5b⟩, ⟨h6a, h6b⟩, ⟨h7a, h7b⟩⟩ := hd
  constructor
  · intro p hp
    rcases datasetId with _ | did
    · simp [handleGenerate] at hp
    rcases user with _ | uid
    · simp [handleGenerate] at hp
    rcases genOutcome with e | gen
    · simp [handleGenerate] at hp
    · simp [handleGenerate] at hp
      subst hp
      exact ⟨⟨unifLe _ _ _ (by norm_num) h1a, unifGe _ _ _ _ (by norm_num) (by norm_num) h1b⟩,
             ⟨unifLe _ _ _ (by norm_num) h2a, unifGe _ _ _ _ (by norm_num) (by norm_num) h2b⟩⟩
  · intro u hu
    rcases datasetId with _ | did
    · simp [handleGenerate] at hu
    rcases user with _ | uid
    · simp [handleGenerate] at hu
    rcases genOutcome with e | gen
    · simp [handleGenerate] at hu
    · simp [handleGenerate] at hu
      subst hu
      exact ⟨⟨unifLe _ _ _ (by norm_num) h3a, unifGe _ _ _ _ (by norm_num) (by norm_num) h3b⟩,
             ⟨unifLe _ _ _ (by norm_num) h4a, unifGe _ _ _ _ (by norm_num) (by norm_num) h4b⟩,
             ⟨unifLe _ _ _ (by norm_num) h5a, unifGe _ _ _ _ (by norm_num) (by norm_num) h5b⟩,
             ⟨unifLe _ _ _ (by norm_num) h6a, unifGe _ _ _ _ (by norm_num) (by norm_num) h6b⟩,
             ⟨unifLe _ _ _ (by norm_num) h7a, unifGe _ _ _ _ (by norm_num) (by norm_num) h7b⟩⟩

/-- C2 witness: the bounds hold at the concrete run with all draws zero. -/
theorem claim_C2_witness :
    ((0.05 : ℚ) ≤ (mkPrivacyMetrics "gen1" sampleParams sampleDraws).privacy_risk_score ∧
      (mkPrivacyMetrics "gen1" sampleParams sampleDraws).privacy_risk_score ≤ 0.15) ∧
    ((0.001 : ℚ) ≤ (mkPrivacyMetrics "gen1" sampleParams sampleDraws).leakage_probability ∧
      (mkPrivacyMetrics "gen1" sampleParams sampleDraws).leakage_probability ≤ 0.006) :=
  (claim_C2 (some "ds1") (some "u1") sampleParams 0 sampleDraws
      (.ok ⟨"gen1"⟩) none none none
      (by norm_num [RandomDraws.inUnit, sampleDraws])).1
    (mkPrivacyMetrics "gen1" sampleParams sampleDraws)
    (by simp [handleGenerate])

/-- C3: whenever an upload stores a Dataset row, its row_count equals the
number of lines that contain a non-whitespace character (after splitting
the file text on newline) minus one. -/
theorem claim_C3 (text projectId userId datasetName description : String)
    (dbOutcome : Except DbError InsertedRow) (row : DatasetInsert)
    (hmem : DbOp.insertDataset row ∈
      (handleUpload (some text) (some projectId) (some userId)
        datasetName description dbOutcome).ops) :
    row.row_count =
      (((jsSplit text '\n').filter fun l =>
          l.data.any fun c => !(isJsWhitespace c)).length : Int) - 1 := by
  rcases hrows : nonBlankRows text with _ | ⟨r0, rest⟩
  · simp [handleUpload, hrows] at hmem
  · rcases dbOutcome with e | ds
    · simp [handleUpload, hrows] at hmem
      subst hmem
      rw [← nonBlankRows_spec, hrows]
      simp
    · simp [handleUpload, hrows] at hmem
      subst hmem
      rw [← nonBlankRows_spec, hrows]
      simp

/-- C3 witness: a file with two blank lines among four data lines stores
row_count 2 = 3 non-blank lines minus one. -/
theorem claim_C3_witness :
    DbOp.insertDataset
        { project_id := "p1", name := "n", description := "",
          schema_json :=
            [⟨"h1", "string", false⟩, ⟨"h2", "string", false⟩],
          row_count := 2, data_type := "tabular", status := "uploaded" } ∈
      (handleUpload (some "h1,h2\n1,2\n\n3,4\n") (some "p1") (some "u1") "n" ""
        (.ok ⟨"d1"⟩)).ops ∧
    (2 : Int) =
      (((jsSplit "h1,h2\n1,2\n\n3,4\n" '\n').filter fun l =>
          l.data.any fun c => !(isJsWhitespace c)).length : Int) - 1 :=
  ⟨by decide,
   claim_C3 "h1,h2\n1,2\n\n3,4\n" "p1" "u1" "n" "" (.ok ⟨"d1"⟩)
     { project_id := "p1", name := "n", description := "",
       schema_json := [⟨"h1", "string", false⟩, ⟨"h2", "string", false⟩],
       row_count := 2, data_type := "tabular", status := "uploaded" }
     (by decide)⟩

/-- C4: whenever an upload stores a Dataset row, its schema has exactly one
entry per comma-separated header of the first non-blank line, each with the
trimmed header as name, type "string", and sensitive true exactly when the
lowercased header contains "id", "name" or "phone" as a substring; in
particular, a file with header line "a,b,id" yields sensitivity flags
[false, false, true]. -/
theorem claim_C4 (text projectId userId datasetName description : String)
    (dbOutcome : Except DbError InsertedRow) (row : DatasetInsert)
    (r0 : String) (rest : List String)
    (hrows : nonBlankRows text = r0 :: rest)
    (hmem : DbOp.insertDataset row ∈
      (handleUpload (some text) (some projectId) (some userId)
        datasetName description dbOutcome).ops) :
    row.schema_json =
      (jsSplit r0 ',').map (fun header =>
        { name := jsTrim header, type := "string",
          sensitive := sensitiveHeader header }) ∧
    (∀ header : String, sensitiveHeader header = true ↔
      (occursInStr "id" (jsToLower header) ∨ occursInStr "name" (jsToLower header) ∨
        occursInStr "phone" (jsToLower header))) ∧
    (∀ row2 : DatasetInsert,
      DbOp.insertDataset row2 ∈
        (handleUpload (some "a,b,id\n1,2,3") (some "p1") (some "u1")
          "n" "" (.ok ⟨"d1"⟩)).ops →
      row2.schema_json.map SchemaEntry.sensitive = [false, false, true]) := by
  refine ⟨?_, ?_, ?_⟩
  · rcases dbOutcome with e | ds
    · simp [handleUpload, hrows] at hmem
      subst hmem
      rfl
    · simp [handleUpload, hrows] at hmem
      subst hmem
      rfl
  · intro header
    rw [sensitiveHeader, Bool.or_eq_true, Bool.or_eq_true,
      jsIncludes_iff, jsIncludes_iff, jsIncludes_iff, or_assoc]
  · intro row2 hm2
    have hconc : nonBlankRows "a,b,id\n1,2,3" = ["a,b,id", "1,2,3"] := by decide
    simp [handleUpload, hconc] at hm2
    subst hm2
    decide

/-- C4 witness: the schema/sensitivity characterization at the concrete file
"a,b,id" followed by one data line. -/
theorem claim_C4_witness :
    ({ project_id := "p1", name := "n", description := "",
       schema_json :=
         [⟨"a", "string", false⟩, ⟨"b", "string", false⟩, ⟨"id", "string", true⟩],
       row_count := 1, data_type := "tabular",
       status := "uploaded" } : DatasetInsert).schema_json =
      (jsSplit "a,b,id" ',').map (fun header =>
        { name := jsTrim header, type := "string",
          sensitive := sensitiveHeader header }) ∧
    (∀ header : String, sensitiveHeader header = true ↔
      (occursInStr "id" (jsToLower header) ∨ occursInStr "name" (jsToLower header) ∨
        occursInStr "phone" (jsToLower header))) ∧
    (∀ row2 : DatasetInsert,
      DbOp.insertDataset row2 ∈
        (handleUpload (some "a,b,id\n1,2,3") (some "p1") (some "u1")
          "n" "" (.ok ⟨"d1"⟩)).ops →
      row2.schema_json.map SchemaEntry.sensitive = [false, false, true]) :=
  claim_C4 "a,b,id\n1,2,3" "p1" "u1" "n" "" (.ok ⟨"d1"⟩)
    { project_id := "p1", name := "n", description := "",
      schema_json :=
        [⟨"a", "string", false⟩, ⟨"b", "string", false⟩, ⟨"id", "string", true⟩],
      row_count := 1, data_type := "tabular", status := "uploaded" }
    "a,b,id" ["1,2,3"] (by decide) (by decide)

/-- C5: every compliance report the generation trigger stores has
compliance_status "compliant", a privacy_guarantees field containing
"ε=" followed by the submitted epsilon verbatim, and an anonymization field
containing "k=" followed by the submitted k verbatim. -/
theorem claim_C5 (datasetId user : Option String) (params : GenParams)
    (now : Int) (d : RandomDraws) (genOutcome : Except DbError InsertedRow)
    (r1 r2 r3 : Option DbError) (c : ComplianceInsert)
    (hmem : DbOp.insertCompliance c ∈
      (handleGenerate datasetId user params now d genOutcome r1 r2 r3).ops) :
    c.compliance_status = "compliant" ∧
    occursInStr ("ε=" ++ params.epsilon) c.report_data.privacy_guarantees ∧
    occursInStr ("k=" ++ params.k_anonymity) c.report_data.anonymization := by
  rcases datasetId with _ | did
  · simp [handleGenerate] at hmem
  rcases user with _ | uid
  · simp [handleGenerate] at hmem
  rcases genOutcome with e | gen
  · simp [handleGenerate] at hmem
  · simp [handleGenerate] at hmem
    subst hmem
    refine ⟨rfl, ⟨"ε-differential privacy with ", "", ?_⟩,
      ⟨"k-anonymity with ", "", ?_⟩⟩
    · rw [String.append_empty, ← String.append_assoc]
      exact congrArg (· ++ params.epsilon) (by decide)
    · rw [String.append_empty, ← String.append_assoc]
      exact congrArg (· ++ params.k_anonymity) (by decide)

/-- C5 witness: at epsilon rendering "1" and k rendering "5" the stored
report is compliant and embeds "ε=1" and "k=5". -/
theorem claim_C5_witness :
    (mkComplianceData "gen1" sampleParams 0).compliance_status = "compliant" ∧
    occursInStr ("ε=" ++ sampleParams.epsilon)
      (mkComplianceData "gen1" sampleParams 0).report_data.privacy_guarantees ∧
    occursInStr ("k=" ++ sampleParams.k_anonymity)
      (mkComplianceData "gen1" sampleParams 0).report_data.anonymization :=
  claim_C5 (some "ds1") (some "u1") sampleParams 0 sampleDraws
    (.ok ⟨"gen1"⟩) none none none
    (mkComplianceData "gen1" sampleParams 0)
    (by simp [handleGenerate])

/-- C6: the dashboard's project and generation counts are invariant under
adding datasets owned by other users, while the dataset count is not: for
any store and any nonempty batch of datasets all owned by users other than
the signed-in one, appending the batch leaves totalProjects and
totalGenerations unchanged but changes totalDatasets. -/
theorem claim_C6 (uid : String) (s1 : StatsStore) (extra : List StatDatasetRow)
    (hne : extra ≠ []) (_hothers : ∀ dRow ∈ extra, dRow.owner_user_id ≠ uid) :
    (loadStats { s1 with datasets := s1.datasets ++ extra } uid).totalProjects =
      (loadStats s1 uid).totalProjects ∧
    (loadStats { s1 with datasets := s1.datasets ++ extra } uid).totalGenerations =
      (loadStats s1 uid).totalGenerations ∧
    (loadStats { s1 with datasets := s1.datasets ++ extra } uid).totalDatasets ≠
      (loadStats s1 uid).totalDatasets := by
  refine ⟨rfl, rfl, ?_⟩
  have hlen : extra.length ≠ 0 := fun h => hne (List.length_eq_zero.mp h)
  simp only [loadStats, List.length_append]
  omega

/-- A one-user store used by the dashboard witness. -/
def sampleStatsStore : StatsStore :=
  { projects := [⟨"p1", "u1"⟩],
    datasets := [⟨"d1", "u1"⟩],
    generations := [⟨"g1", "u1"⟩] }

/-- A dataset owned by another user. -/
def foreignDataset : StatDatasetRow :=
  { id := "d2", owner_user_id := "u2" }

/-- C6 witness: one foreign-owned dataset added to a one-row store keeps the
project and generation counts and changes the dataset count. -/
theorem claim_C6_witness :
    (loadStats
        { sampleStatsStore with
            datasets := sampleStatsStore.datasets ++ [foreignDataset] }
        "u1").totalProjects =
      (loadStats sampleStatsStore "u1").totalProjects ∧
    (loadStats
        { sampleStatsStore with
            datasets := sampleStatsStore.datasets ++ [foreignDataset] }
        "u1").totalGenerations =
      (loadStats sampleStatsStore "u1").totalGenerations ∧
    (loadStats
        { sampleStatsStore with
            datasets := sampleStatsStore.datasets ++ [foreignDataset] }
        "u1").totalDatasets ≠
      (loadStats sampleStatsStore "u1").totalDatasets :=
  claim_C6 "u1" sampleStatsStore [foreignDataset] (by decide) (by decide)

/-- C7: every compliance report the generation trigger stores has
valid_until equal to its generated_at plus exactly 365 days in milliseconds
(365 * 24 * 60 * 60 * 1000), both taken at submission time. -/
theorem claim_C7 (datasetId user : Option String) (params : GenParams)
    (now : Int) (d : RandomDraws) (genOutcome : Except DbError InsertedRow)
    (r1 r2 r3 : Option DbError) (c : ComplianceInsert)
    (hmem : DbOp.insertCompliance c ∈
      (handleGenerate datasetId user params now d genOutcome r1 r2 r3).ops) :
    c.report_data.valid_until =
      c.report_data.generated_at + 365 * 24 * 60 * 60 * 1000 := by
  rcases datasetId with _ | did
  · simp [handleGenerate] at hmem
  rcases user with _ | uid
  · simp [handleGenerate] at hmem
  rcases genOutcome with e | gen
  · simp [handleGenerate] at hmem
  · simp [handleGenerate] at hmem
    subst hmem
    rfl

/-- C7 witness: the 365-day window at submission time 0. -/
theorem claim_C7_witness :
    (mkComplianceData "gen1" sampleParams 0).report_data.valid_until =
      (mkComplianceData "gen1" sampleParams 0).report_data.generated_at +
        365 * 24 * 60 * 60 * 1000 :=
  claim_C7 (some "ds1") (some "u1") sampleParams 0 sampleDraws
    (.ok ⟨"gen1"⟩) none none none
    (mkComplianceData "gen1" sampleParams 0)
    (by simp [handleGenerate])

/-- C8: selecting a file whose MIME type is not "text/csv" sets the inline
error "Please upload a CSV file", leaves the pending file and the dataset
name untouched, and issues no data-store operation. -/
theorem claim_C8 (st : UploadFormState) (f : FileDesc)
    (hmime : f.mime ≠ "text/csv") :
    (handleFileChange st (some f)).1.error = "Please upload a CSV file" ∧
    (handleFileChange st (some f)).1.file = st.file ∧
    (handleFileChange st (some f)).1.datasetName = st.datasetName ∧
    (handleFileChange st (some f)).2 = [] := by
  have hb : (f.mime != "text/csv") = true := bne_iff_ne.mpr hmime
  simp [handleFileChange, hb]

/-- C8 witness: a JSON file is rejected without side effects. -/
theorem claim_C8_witness :
    (handleFileChange { file := none, datasetName := "", error := "" }
        (some ⟨"data.json", "application/json"⟩)).1.error =
      "Please upload a CSV file" ∧
    (handleFileChange { file := none, datasetName := "", error := "" }
        (some ⟨"data.json", "application/json"⟩)).1.file = none ∧
    (handleFileChange { file := none, datasetName := "", error := "" }
        (some ⟨"data.json", "application/json"⟩)).1.datasetName = "" ∧
    (handleFileChange { file := none, datasetName := "", error := "" }
        (some ⟨"data.json", "application/json"⟩)).2 = [] :=
  claim_C8 { file := none, datasetName := "", error := "" }
    ⟨"data.json", "application/json"⟩ (by decide)

/-- C9: for a generation with at least one report row and an id of at least
8 characters, the export offers a file named "compliance-report-" followed
by exactly the first 8 characters of the generation id followed by ".txt",
as a plain-text blob, issuing no data-store operation. -/
theorem claim_C9 (gen : GenerationView) (report : ComplianceInsert)
    (rest : List ComplianceInsert)
    (hrep : gen.compliance_reports = report :: rest)
    (hlen : 8 ≤ gen.id.length) :
    (downloadComplianceReport gen).1 =
      some { name := "compliance-report-" ++ String.mk (gen.id.data.take 8) ++ ".txt",
             mimeType := "text/plain" } ∧
    (gen.id.data.take 8).length = 8 ∧
    gen.id.data = gen.id.data.take 8 ++ gen.id.data.drop 8 ∧
    (downloadComplianceReport gen).2 = [] := by
  refine ⟨?_, ?_, ?_, ?_⟩
  · simp [downloadComplianceReport, hrep, jsSlice]
  · rw [List.length_take]
    exact Nat.min_eq_left hlen
  · exact (List.take_append_drop 8 gen.id.data).symm
  · simp [downloadComplianceReport, hrep]

/-- C9 witness: a 36-character id yields the 8-character slice in the name. -/
theorem claim_C9_witness :
    (downloadComplianceReport
        { id := "123e4567-e89b-12d3-a456-426614174000",
          compliance_reports := [mkComplianceData "g" sampleParams 0] }).1 =
      some { name := "compliance-report-" ++
               String.mk (("123e4567-e89b-12d3-a456-426614174000" : String).data.take 8) ++
               ".txt",
             mimeType := "text/plain" } ∧
    ((("123e4567-e89b-12d3-a456-426614174000" : String)).data.take 8).length = 8 ∧
    (("123e4567-e89b-12d3-a456-426614174000" : String)).data =
      (("123e4567-e89b-12d3-a456-426614174000" : String)).data.take 8 ++
        (("123e4567-e89b-12d3-a456-426614174000" : String)).data.drop 8 ∧
    (downloadComplianceReport
        { id := "123e4567-e89b-12d3-a456-426614174000",
          compliance_reports := [mkComplianceData "g" sampleParams 0] }).2 = [] :=
  claim_C9
    { id := "123e4567-e89b-12d3-a456-426614174000",
      compliance_reports := [mkComplianceData "g" sampleParams 0] }
    (mkComplianceData "g" sampleParams 0) [] rfl (by decide)

/-- C10: when every newline-separated line of the uploaded file is blank
(only whitespace characters), the upload handler fails before issuing any
insert — the error from reading the header row is caught and shown — no
Dataset row is created, and the store is left unchanged. -/
theorem claim_C10 (text projectId userId datasetName description : String)
    (dbOutcome : Except DbError InsertedRow)
    (hblank : ∀ l ∈ jsSplit text '\n', ∀ c ∈ l.data, isJsWhitespace c = true) :
    (handleUpload (some text) (some projectId) (some userId)
      datasetName description dbOutcome).ops = [] ∧
    (handleUpload (some text) (some projectId) (some userId)
      datasetName description dbOutcome).success = false ∧
    (handleUpload (some text) (some projectId) (some userId)
      datasetName description dbOutcome).errorMsg = some undefinedSplitMessage ∧
    ∀ s : Store,
      applyOps s (handleUpload (some text) (some projectId) (some userId)
        datasetName description dbOutcome).ops = s := by
  have hnil : nonBlankRows text = [] := by
    rw [nonBlankRows_spec, List.filter_eq_nil_iff]
    intro l hl
    simp only [List.any_eq_true, not_exists]
    rintro c ⟨hc, hws⟩
    rw [hblank l hl c hc] at hws
    simp at hws
  refine ⟨?_, ?_, ?_, ?_⟩
  · simp [handleUpload, hnil]
  · simp [handleUpload, hnil]
  · simp [handleUpload, hnil]
  · intro s
    simp [handleUpload, hnil, applyOps]

/-- C10 witness: a file of one space line and one tab line is rejected with
no insert and an unchanged store. -/
theorem claim_C10_witness :
    (handleUpload (some " \n\t") (some "p1") (some "u1") "n" ""
      (.ok ⟨"d1"⟩)).ops = [] ∧
    (handleUpload (some " \n\t") (some "p1") (some "u1") "n" ""
      (.ok ⟨"d1"⟩)).success = false ∧
    (handleUpload (some " \n\t") (some "p1") (some "u1") "n" ""
      (.ok ⟨"d1"⟩)).errorMsg = some undefinedSplitMessage ∧
    ∀ s : Store,
      applyOps s (handleUpload (some " \n\t") (some "p1") (some "u1") "n" ""
        (.ok ⟨"d1"⟩)).ops = s :=
  claim_C10 " \n\t" "p1" "u1" "n" "" (.ok ⟨"d1"⟩) (by decide)

end SynthData
